import Mathlib

/-!
Shallow embedding of the visual-novel platform (KalbinVV/visualnov):
the data model (users / stories / chapters / scenes / choices / game saves),
the persistence-layer operations of `database.py`, the game logic of
`game.py` (`can_access_game`, `purchase_game`, `load_game_state`,
`make_choice`) and the choice endpoint of `app.py` (`api_make_choice`),
together with the content-authoring operations of `story.py`
(`create_chapter`, `create_scene`).

Rows are Lean structures; the SQLite tables are Lean lists; an SQL
`SELECT ... WHERE id = ?` is `List.find?`; a guarded `UPDATE` is a
`List.map` whose function rewrites exactly the rows matching the SQL
`WHERE` clause, and the reported `rowcount > 0` is `List.any` of that
clause.  A database write that can fail only by raising (the bare
`INSERT OR ... `/`try/except` around `save_game`) is modelled with an
explicit success oracle `saveOk : Bool` passed in by the caller.
Timestamp and presentation-only fields (`created_at`, `updated_at`,
`unlocked`, images, music, dialogue text) are omitted: no modelled
operation reads them.
-/

namespace VisualNov

/-- Row of the `users` table (the fields the modelled operations read). -/
structure User where
  id : Nat
  diamonds : Int
  deriving Repr, DecidableEq

/-- Row of the `stories` table. -/
structure Story where
  id : Nat
  storyKey : String
  premium : Bool
  diamondsCost : Int
  chaptersCount : Int
  scenesCount : Int
  isPublished : Bool
  deriving Repr, DecidableEq

/-- Row of the `chapters` table; `UNIQUE(story_id, chapter_number)` in the schema. -/
structure Chapter where
  id : Nat
  storyId : Nat
  chapterNumber : Int
  deriving Repr, DecidableEq

/-- Row of the `scenes` table; `UNIQUE(chapter_id, scene_number)` in the schema. -/
structure Scene where
  id : Nat
  chapterId : Nat
  sceneNumber : Int
  deriving Repr, DecidableEq

/-- Row of the `choices` table (the fields `make_choice` and the API read). -/
structure Choice where
  id : Nat
  sceneId : Nat
  nextSceneId : Option Nat
  nextChapterId : Option Nat
  premium : Bool
  diamondsCost : Int
  affectionChange : Int
  trustChange : Int
  passionChange : Int
  deriving Repr, DecidableEq

/-- Accumulated relationship stats inside a save (`game_state['stats']`). -/
structure Stats where
  affection : Int
  trust : Int
  passion : Int
  deriving Repr, DecidableEq

/-- Entry appended to `game_state['choices']` by `make_choice`
(timestamp omitted). -/
structure HistEntry where
  choiceId : Nat
  scene : Int
  chapter : Int
  deriving Repr, DecidableEq

/-- The JSON dictionary stored in `game_saves.save_data`. -/
structure GameState where
  chapter : Int
  scene : Int
  choices : List HistEntry
  stats : Stats
  deriving Repr, DecidableEq

/-- Row of the `game_saves` table; `UNIQUE(user_id, game_name, save_slot)`. -/
structure SaveRow where
  userId : Nat
  gameName : String
  saveSlot : Int
  state : GameState
  deriving Repr, DecidableEq

/-- The whole relational store (the tables the modelled operations touch). -/
structure DB where
  users : List User
  stories : List Story
  chapters : List Chapter
  scenes : List Scene
  choices : List Choice
  saves : List SaveRow
  deriving Repr, DecidableEq

/-! ## Read-side queries of `database.py` / `story.py` -/

/-- `Database.get_user_by_id`: `SELECT * FROM users WHERE id = ?`. -/
def DB.getUserById (db : DB) (userId : Nat) : Option User :=
  db.users.find? (fun u => u.id == userId)

/-- `Database.get_choice_by_id`: `SELECT * FROM choices WHERE id = ?`. -/
def DB.getChoiceById (db : DB) (choiceId : Nat) : Option Choice :=
  db.choices.find? (fun c => c.id == choiceId)

/-- `Database.get_scene_by_id`: `SELECT * FROM scenes WHERE id = ?`. -/
def DB.getSceneById (db : DB) (sceneId : Nat) : Option Scene :=
  db.scenes.find? (fun s => s.id == sceneId)

/-- `Database.get_chapter_by_id`: `SELECT * FROM chapters WHERE id = ?`. -/
def DB.getChapterById (db : DB) (chapterId : Nat) : Option Chapter :=
  db.chapters.find? (fun c => c.id == chapterId)

/-- `StoryService.get_story_by_key`: `SELECT * FROM stories WHERE story_key = ?`. -/
def DB.getStoryByKey (db : DB) (storyKey : String) : Option Story :=
  db.stories.find? (fun s => s.storyKey == storyKey)

/-- `Database.get_user_saves`: all save rows of a user for a game. -/
def DB.getUserSaves (db : DB) (userId : Nat) (gameName : String) : List SaveRow :=
  db.saves.filter (fun s => s.userId == userId && s.gameName == gameName)

/-- `Database.load_game`: the stored state for (user, game, slot), if any. -/
def DB.loadGame (db : DB) (userId : Nat) (gameName : String) (saveSlot : Int) :
    Option GameState :=
  (db.saves.find? (fun s =>
    s.userId == userId && s.gameName == gameName && s.saveSlot == saveSlot)).map
    (fun s => s.state)

/-- Convenience projection: the diamonds of the user row `get_user_by_id` returns. -/
def DB.diamondsOf (db : DB) (userId : Nat) : Option Int :=
  (db.getUserById userId).map (fun u => u.diamonds)

/-! ## Write-side operations of `database.py` -/

/-- `Database.increment_diamonds`:
`UPDATE users SET diamonds = diamonds + ? WHERE id = ?`, returning
`rowcount > 0` (whether some user row matched). -/
def DB.incrementDiamonds (db : DB) (userId : Nat) (amount : Int) : DB × Bool :=
  ({ db with users := db.users.map (fun u =>
      if u.id == userId then { u with diamonds := u.diamonds + amount } else u) },
   db.users.any (fun u => u.id == userId))

/-- `Database.decrement_diamonds`:
`UPDATE users SET diamonds = diamonds - ? WHERE id = ? AND diamonds >= ?`,
returning `rowcount > 0`; so a row is changed, and success reported,
only when the balance covers the amount. -/
def DB.decrementDiamonds (db : DB) (userId : Nat) (amount : Int) : DB × Bool :=
  ({ db with users := db.users.map (fun u =>
      if u.id == userId && decide (amount ≤ u.diamonds)
      then { u with diamonds := u.diamonds - amount } else u) },
   db.users.any (fun u => u.id == userId && decide (amount ≤ u.diamonds)))

/-- Upsert of one save row, the `ON CONFLICT ... DO UPDATE` of `save_game`. -/
def upsertSave (saves : List SaveRow) (row : SaveRow) : List SaveRow :=
  if saves.any (fun s =>
      s.userId == row.userId && s.gameName == row.gameName && s.saveSlot == row.saveSlot)
  then saves.map (fun s =>
      if s.userId == row.userId && s.gameName == row.gameName && s.saveSlot == row.saveSlot
      then row else s)
  else saves ++ [row]

/-- `Database.save_game`: upserts the row and returns `True`; the
`except` branch (SQL error) returns `False` with nothing written.
`saveOk` is the oracle for whether the write raises. -/
def DB.saveGame (db : DB) (saveOk : Bool) (userId : Nat) (gameName : String)
    (saveSlot : Int) (st : GameState) : DB × Bool :=
  if saveOk then
    ({ db with saves := upsertSave db.saves ⟨userId, gameName, saveSlot, st⟩ }, true)
  else (db, false)

/-! ## String containment (the Python `in` operator on str) -/

/-- Whether the first character list sits at the front of the second. -/
def charsPre : List Char → List Char → Bool
  | [], _ => true
  | _ :: _, [] => false
  | a :: as, b :: bs => a == b && charsPre as bs

/-- Whether the first character list occurs contiguously inside the second. -/
def charsSub : List Char → List Char → Bool
  | needle, [] => needle.isEmpty
  | needle, b :: t => charsPre needle (b :: t) || charsSub needle t

/-- Python `sub in hay` for strings: contiguous substring test. -/
def strContains (hay sub : String) : Bool :=
  charsSub sub.data hay.data

/-! ## Game logic of `game.py` -/

/-- A Python runtime error surfaced by the embedded code. -/
inductive PyErr where
  | nameError (name : String)
  deriving Repr, DecidableEq

/-- `GameService.can_access_game`.  The story branch mirrors the source
check order (published → free → already-bought → user lookup → diamonds).
In the legacy branch (no story under the key), the source reads the
never-assigned name `game_info`, so reaching that point raises `NameError`. -/
def GameService.canAccessGame (db : DB) (userId : Nat) (gameKey : String) :
    Except PyErr (Bool × String) :=
  match db.getStoryByKey gameKey with
  | some story =>
    if !story.isPublished then .ok (false, "История еще не опубликована")
    else if !story.premium then .ok (true, "История доступна")
    else if !(db.getUserSaves userId gameKey).isEmpty then .ok (true, "История уже куплена")
    else
      match db.getUserById userId with
      | none => .ok (false, "Пользователь не найден")
      | some u =>
        if u.diamonds < story.diamondsCost then
          .ok (false, "Недостаточно алмазов. Нужно " ++ toString story.diamondsCost)
        else .ok (true, "История доступна за алмазы")
  | none =>
    if !(db.getUserSaves userId gameKey).isEmpty then .ok (true, "Игра уже куплена")
    else
      match db.getUserById userId with
      | none => .ok (false, "Пользователь не найден")
      | some _ => .error (.nameError "game_info")

/-- The initial save dictionary: chapter 1, scene 1, no choice history,
zeroed stats.  Both `purchase_game` and `load_game_state` build this
dictionary (modulo the omitted `unlocked`/timestamp bookkeeping keys). -/
def initialSave : GameState :=
  { chapter := 1, scene := 1, choices := [], stats := ⟨0, 0, 0⟩ }

/-- Result of `GameService.purchase_game`: the store afterwards and the
returned `(success, message)` pair. -/
structure PurchaseOut where
  db : DB
  success : Bool
  message : String
  deriving Repr, DecidableEq

/-- Tail of `purchase_game` after the optional debit: write the initial
save; on success report the price paid, otherwise refund a positive
debit and report failure. -/
def GameService.finishPurchase (db : DB) (saveOk : Bool) (userId : Nat)
    (gameKey : String) (diamondsCost : Int) : PurchaseOut :=
  match db.saveGame saveOk userId gameKey 1 initialSave with
  | (db1, true) => ⟨db1, true, "Игра куплена за " ++ toString diamondsCost ++ " алмазов"⟩
  | (db1, false) =>
    let db2 := if 0 < diamondsCost then (db1.incrementDiamonds userId diamondsCost).1 else db1
    ⟨db2, false, "Ошибка покупки игры"⟩

/-- `GameService.purchase_game`.  The purchase is refused up front only
when `can_access_game` denies access with a message containing
"Недостаточно алмазов"; any other denial falls through.  A positive
story cost is debited (failing the purchase when the guarded decrement
reports no row), then the initial save is written. -/
def GameService.purchaseGame (db : DB) (saveOk : Bool) (userId : Nat)
    (gameKey : String) : Except PyErr PurchaseOut :=
  match GameService.canAccessGame db userId gameKey with
  | .error e => .error e
  | .ok (accessible, message) =>
    if (!accessible && strContains message "Недостаточно алмазов") = true then
      .ok ⟨db, false, message⟩
    else
      let diamondsCost : Int :=
        match db.getStoryByKey gameKey with
        | some story => story.diamondsCost
        | none => 0
      if 0 < diamondsCost then
        match db.decrementDiamonds userId diamondsCost with
        | (db1, true) => .ok (GameService.finishPurchase db1 saveOk userId gameKey diamondsCost)
        | (_, false) => .ok ⟨(db.decrementDiamonds userId diamondsCost).1, false, "Недостаточно алмазов"⟩
      else .ok (GameService.finishPurchase db saveOk userId gameKey diamondsCost)

/-- `GameService.load_game_state`: the stored state, or a freshly
created default save when none exists (written immediately, its own
write result ignored). -/
def GameService.loadGameState (db : DB) (saveOk : Bool) (userId : Nat)
    (gameKey : String) (saveSlot : Int) : DB × GameState :=
  match db.loadGame userId gameKey saveSlot with
  | some st => (db, st)
  | none => ((db.saveGame saveOk userId gameKey saveSlot initialSave).1, initialSave)

/-- Result of `GameService.make_choice`: the store afterwards and the
returned `(success, message, game_state)` triple. -/
structure MakeChoiceOut where
  db : DB
  success : Bool
  message : String
  state : Option GameState
  deriving Repr, DecidableEq

/-- Tail of `make_choice`: persist the updated state via
`save_game_state` and report the outcome. -/
def GameService.makeChoiceSave (db : DB) (saveOk : Bool) (userId : Nat)
    (gameKey : String) (saveSlot : Int) (gs : GameState) : MakeChoiceOut :=
  match db.saveGame saveOk userId gameKey saveSlot gs with
  | (db1, true) => ⟨db1, true, "Выбор сделан", some gs⟩
  | (db1, false) => ⟨db1, false, "Ошибка сохранения", none⟩

/-- Body of `make_choice` once the game state has been loaded: append
the choice to the in-state history, and — when the choice row exists —
accumulate its stat deltas, debit a positive premium cost through
`decrement_diamonds` with the returned success flag discarded, resolve
the transition (`next_scene_id` → that scene's chapter/scene numbers;
`next_chapter_id` → that chapter's number, scene 1; neither → next scene
in the current chapter), and finally save. -/
def GameService.makeChoiceCore (db : DB) (gs0 : GameState) (saveOk : Bool) (userId : Nat)
    (gameKey : String) (choiceId : Nat) (saveSlot : Int) : MakeChoiceOut :=
    let gs1 : GameState :=
      { gs0 with choices := gs0.choices ++ [⟨choiceId, gs0.scene, gs0.chapter⟩] }
    match db.getChoiceById choiceId with
    | none => GameService.makeChoiceSave db saveOk userId gameKey saveSlot gs1
    | some cd =>
      let gs2 : GameState :=
        { gs1 with stats := ⟨gs1.stats.affection + cd.affectionChange,
                             gs1.stats.trust + cd.trustChange,
                             gs1.stats.passion + cd.passionChange⟩ }
      let db2 := if cd.premium && decide (0 < cd.diamondsCost)
                 then (db.decrementDiamonds userId cd.diamondsCost).1 else db
      match cd.nextSceneId with
      | some nextSceneId =>
        match db2.getSceneById nextSceneId with
        | none => ⟨db2, false, "Следующая сцена не найдена", none⟩
        | some nextScene =>
          match db2.getChapterById nextScene.chapterId with
          | none => ⟨db2, false, "Глава для следующей сцены не найдена", none⟩
          | some chapter =>
            GameService.makeChoiceSave db2 saveOk userId gameKey saveSlot
              { gs2 with chapter := chapter.chapterNumber, scene := nextScene.sceneNumber }
      | none =>
        match cd.nextChapterId with
        | some nextChapterId =>
          match db2.getChapterById nextChapterId with
          | none => ⟨db2, false, "Следующая глава не найдена", none⟩
          | some nextChapter =>
            GameService.makeChoiceSave db2 saveOk userId gameKey saveSlot
              { gs2 with chapter := nextChapter.chapterNumber, scene := 1 }
        | none =>
          GameService.makeChoiceSave db2 saveOk userId gameKey saveSlot
            { gs2 with scene := gs2.scene + 1 }

/-- `GameService.make_choice`, following the source line by line: load
(or lazily create) the save with `load_game_state`, then run the body
above on the loaded state. -/
def GameService.makeChoice (db0 : DB) (saveOk : Bool) (userId : Nat)
    (gameKey : String) (choiceId : Nat) (saveSlot : Int) : MakeChoiceOut :=
  GameService.makeChoiceCore
    (GameService.loadGameState db0 saveOk userId gameKey saveSlot).1
    (GameService.loadGameState db0 saveOk userId gameKey saveSlot).2
    saveOk userId gameKey choiceId saveSlot

/-! ## The choice endpoint of `app.py` (`api_make_choice`) -/

/-- Outcome of the endpoint: an HTTP error status with an `error` body,
or an HTTP 200 whose body carries `success: true` and the final
game state.  The scene-payload projection (`get_game_story`) and the
play-statistics update are read-side and are not modelled. -/
inductive ApiResp where
  | httpError (status : Nat) (message : String)
  | success (state : GameState) (message : String)
  deriving Repr, DecidableEq

/-- Tail of `api_make_choice` after the re-save has committed: the
endpoint calls `get_game_story`, whose story lookup has no `None`
guard — `story['id']` on a missing row raises `TypeError`, which the
endpoint's `except` answers with HTTP 500 (the re-save is already
persisted by then).  With the story present, `get_game_story` returns
normally (possibly `None`, with no raise) and the endpoint answers 200;
the scene payload itself and `update_game_stats` are read-side /
untracked and are not modelled. -/
def apiRespond (db2 : DB) (gameKey : String) (gs2 : GameState) (message : String) :
    DB × ApiResp :=
  match db2.getStoryByKey gameKey with
  | none => (db2, .httpError 500 "Ошибка выбора")
  | some _ => (db2, .success gs2 message)

/-- `api_make_choice`: validate the body, run `make_choice` (a failure
becomes HTTP 400 with the message as the error body), then re-read the
choice row and overwrite the state's scene pointer with the raw
`next_scene_id` (or current scene + 1) and the chapter pointer with the
raw `next_chapter_id` (or the state's chapter), re-save the result, and
finish through `get_game_story` (HTTP 500 when the game key matches no
story, HTTP 200 with the state otherwise).  The two `saveOk` oracles
cover the save inside `make_choice` and the endpoint's own re-save.  A
missing choice row or state would also raise in the source and be
answered with status 500. -/
def apiMakeChoice (db : DB) (saveOk saveOk2 : Bool) (userId : Nat)
    (gameKey : String) (choiceIdOpt : Option Nat) (saveSlot : Int) : DB × ApiResp :=
  match choiceIdOpt with
  | none => (db, .httpError 400 "Не указан выбор")
  | some choiceId =>
    let r := GameService.makeChoice db saveOk userId gameKey choiceId saveSlot
    if r.success = false then (r.db, .httpError 400 r.message)
    else
      match r.state with
      | none => (r.db, .httpError 500 "Ошибка выбора")
      | some gs =>
        match r.db.getChoiceById choiceId with
        | none => (r.db, .httpError 500 "Ошибка выбора")
        | some choice =>
          let scene : Int :=
            match choice.nextSceneId with
            | some nextSceneId => (nextSceneId : Int)
            | none => gs.scene + 1
          let chapter : Int :=
            match choice.nextChapterId with
            | some nextChapterId => (nextChapterId : Int)
            | none => gs.chapter
          let gs2 := { gs with scene := scene, chapter := chapter }
          apiRespond ((r.db.saveGame saveOk2 userId gameKey saveSlot gs2).1) gameKey gs2 r.message

/-! ## Content authoring of `story.py` -/

/-- `StoryService.create_chapter`.  The schema's
`UNIQUE(story_id, chapter_number)` makes the `INSERT` raise
`IntegrityError` on a duplicate number, which the source catches and
turns into `None` with nothing committed; otherwise the chapter is
inserted and the story's denormalized `chapters_count` is recomputed.
`newId` stands for the engine-assigned AUTOINCREMENT row id. -/
def StoryService.createChapter (db : DB) (newId : Nat) (storyId : Nat)
    (chapterNumber : Int) : DB × Option Nat :=
  if db.chapters.any (fun c => c.storyId == storyId && c.chapterNumber == chapterNumber) then
    (db, none)
  else
    let chapters := db.chapters ++ [⟨newId, storyId, chapterNumber⟩]
    let stories := db.stories.map (fun s =>
      if s.id == storyId
      then { s with chaptersCount :=
              ((chapters.filter (fun c => c.storyId == storyId)).length : Int) }
      else s)
    ({ db with chapters := chapters, stories := stories }, some newId)

/-- `StoryService.create_scene`.  The schema's
`UNIQUE(chapter_id, scene_number)` makes a duplicate number raise, which
the source catches and turns into `None` with nothing committed;
otherwise the scene is inserted and the owning story's
`scenes_count` is recomputed (no story row matches when the chapter id
is dangling, as in the source's `WHERE id = (SELECT ...)` on NULL). -/
def StoryService.createScene (db : DB) (newId : Nat) (chapterId : Nat)
    (sceneNumber : Int) : DB × Option Nat :=
  if db.scenes.any (fun s => s.chapterId == chapterId && s.sceneNumber == sceneNumber) then
    (db, none)
  else
    let scenes := db.scenes ++ [⟨newId, chapterId, sceneNumber⟩]
    match db.getChapterById chapterId with
    | none => ({ db with scenes := scenes }, some newId)
    | some ch =>
      let cnt : Int := (scenes.filter (fun s =>
        db.chapters.any (fun c => c.id == s.chapterId && c.storyId == ch.storyId))).length
      ({ db with scenes := scenes,
                 stories := db.stories.map (fun st =>
                   if st.id == ch.storyId then { st with scenesCount := cnt } else st) },
       some newId)

/-! ## Sequences of balance-affecting operations -/

/-- Each user row keeps a non-negative diamond balance. -/
def balancesNonneg (db : DB) : Prop :=
  ∀ u ∈ db.users, 0 ≤ u.diamonds

/-- Every stored choice cost and story cost is non-negative. -/
def costsNonneg (db : DB) : Prop :=
  (∀ c ∈ db.choices, 0 ≤ c.diamondsCost) ∧ (∀ s ∈ db.stories, 0 ≤ s.diamondsCost)

/-- One balance-affecting operation of the game service: a choice
application (`make_choice`) or a game purchase (`purchase_game`). -/
inductive Op where
  | choiceOp (saveOk : Bool) (gameKey : String) (choiceId : Nat) (saveSlot : Int)
  | purchaseOp (saveOk : Bool) (gameKey : String)
  deriving Repr

/-- Apply one operation for a fixed user.  A `purchase_game` call that
raises (the legacy `NameError`) mutates nothing before the raise. -/
def stepOp (userId : Nat) (db : DB) : Op → DB
  | .choiceOp saveOk gameKey choiceId saveSlot =>
    (GameService.makeChoice db saveOk userId gameKey choiceId saveSlot).db
  | .purchaseOp saveOk gameKey =>
    match GameService.purchaseGame db saveOk userId gameKey with
    | .ok out => out.db
    | .error _ => db

/-- Run a sequence of operations for a fixed user. -/
def runOps (userId : Nat) (db : DB) (ops : List Op) : DB :=
  ops.foldl (stepOp userId) db

/-- Run a sequence of `make_choice` calls (save writes succeeding). -/
def runChoices (userId : Nat) (gameKey : String) (saveSlot : Int) :
    DB → List Nat → DB
  | db, [] => db
  | db, choiceId :: rest =>
    runChoices userId gameKey saveSlot
      (GameService.makeChoice db true userId gameKey choiceId saveSlot).db rest

/-- Whether every `make_choice` call in the sequence reports success. -/
def choicesSucceed (userId : Nat) (gameKey : String) (saveSlot : Int) :
    DB → List Nat → Bool
  | _, [] => true
  | db, choiceId :: rest =>
    let r := GameService.makeChoice db true userId gameKey choiceId saveSlot
    r.success && choicesSucceed userId gameKey saveSlot r.db rest

/-- Componentwise sum of two stat records. -/
def Stats.add (a b : Stats) : Stats :=
  ⟨a.affection + b.affection, a.trust + b.trust, a.passion + b.passion⟩

/-- The stat deltas a choice row carries. -/
def choiceDeltas (cd : Choice) : Stats :=
  ⟨cd.affectionChange, cd.trustChange, cd.passionChange⟩

/-- Sum of the deltas of the named choices, looked up in the store
(absent rows contribute nothing). -/
def sumDeltas (db : DB) : List Nat → Stats
  | [] => ⟨0, 0, 0⟩
  | choiceId :: rest =>
    (match db.getChoiceById choiceId with
     | some cd => choiceDeltas cd
     | none => (⟨0, 0, 0⟩ : Stats)).add (sumDeltas db rest)

/-! ## Structural uniqueness of authored content -/

/-- No two chapter rows share a `(story_id, chapter_number)` pair. -/
def chapterKeysUnique : List Chapter → Bool
  | [] => true
  | c :: rest =>
    !(rest.any (fun d => d.storyId == c.storyId && d.chapterNumber == c.chapterNumber))
      && chapterKeysUnique rest

/-- No two scene rows share a `(chapter_id, scene_number)` pair. -/
def sceneKeysUnique : List Scene → Bool
  | [] => true
  | s :: rest =>
    !(rest.any (fun t => t.chapterId == s.chapterId && t.sceneNumber == s.sceneNumber))
      && sceneKeysUnique rest

/-! ## The progression evaluator described by the specification

Modelled from the spec: no availability check exists anywhere in the
source — `game.py` applies a choice without consulting the user's stats,
currency, role or any lock, and none of the fields the spec's §4.1
evaluator reads (`required_*_level`, `only_leader`, `is_locked`,
`unlocked_for_teams`, team membership, a per-story `SaveState` with
teasing/friendship/passion levels) appears in the schema.  The
definitions below follow the spec's words alone, including its
instruction to compare the passion/teasing levels against the
`required_*` threshold fields. -/

/-- Modelled from the spec: the user context the §4.1 evaluator reads
(premium currency balance, team/leader role). -/
structure SpecUser where
  diamonds : Int
  isTeamLeader : Bool
  teamId : Nat
  deriving Repr, DecidableEq

/-- Modelled from the spec: the per-user-per-story SaveState stat levels. -/
structure SpecSave where
  friendshipLevel : Int
  passionLevel : Int
  teasingLevel : Int
  deriving Repr, DecidableEq

/-- Modelled from the spec: the static requirements a choice carries. -/
structure SpecChoice where
  premium : Bool
  diamondsCost : Int
  onlyLeader : Bool
  requiredFriendshipLevel : Int
  requiredPassionLevel : Int
  requiredTeasingLevel : Int
  isLocked : Bool
  unlockedForTeams : List Nat
  deriving Repr, DecidableEq

/-- Modelled from the spec: `is_choice_available` (§4.1) — the checks in
order, the first failing one short-circuiting with its reason; the
reason is empty exactly on success. -/
def isChoiceAvailable (user : SpecUser) (save : SpecSave) (choice : SpecChoice) :
    Bool × String :=
  if choice.premium && decide (user.diamonds < choice.diamondsCost) then
    (false, "insufficient currency")
  else if choice.onlyLeader && !user.isTeamLeader then
    (false, "leader-only")
  else if save.friendshipLevel < choice.requiredFriendshipLevel then
    (false, "requirement not met")
  else if save.passionLevel < choice.requiredPassionLevel then
    (false, "requirement not met")
  else if save.teasingLevel < choice.requiredTeasingLevel then
    (false, "requirement not met")
  else if choice.isLocked && !(choice.unlockedForTeams.contains user.teamId) then
    (false, "team-locked")
  else (true, "")

/-! ## Concrete example stores used to instantiate the theorems -/

/-- Store with one user (3 diamonds), a published premium story, a
premium choice costing 2 and an existing save. -/
def exDbC1 : DB :=
  { users := [⟨1, 3⟩],
    stories := [⟨7, "g", true, 2, 1, 1, true⟩],
    chapters := [],
    scenes := [],
    choices := [⟨5, 42, none, none, true, 2, 1, 1, 1⟩],
    saves := [⟨1, "g", 1, initialSave⟩] }

/-- Store with a user holding 0 diamonds, a premium choice costing 10
and an existing save at the initial state. -/
def exDbC2 : DB :=
  { users := [⟨1, 0⟩],
    stories := [],
    chapters := [],
    scenes := [],
    choices := [⟨5, 42, none, none, true, 10, 1, 0, 0⟩],
    saves := [⟨1, "g", 1, initialSave⟩] }

/-- Store with a user holding 10 diamonds and a premium choice costing 5. -/
def exDbC4 : DB :=
  { users := [⟨1, 10⟩],
    stories := [],
    chapters := [],
    scenes := [],
    choices := [⟨5, 42, none, none, true, 5, 0, 0, 0⟩],
    saves := [⟨1, "g", 1, initialSave⟩] }

/-- Store with two non-premium choices carrying known stat deltas. -/
def exDbC5 : DB :=
  { users := [⟨1, 100⟩],
    stories := [],
    chapters := [],
    scenes := [],
    choices := [⟨5, 42, none, none, false, 0, 1, 2, 3⟩,
                ⟨6, 42, none, none, false, 0, 10, 20, 30⟩],
    saves := [⟨1, "g", 1, initialSave⟩] }

/-- Store with scene id 42 (scene number 7, chapter 3 of number 2) and a
non-premium choice 6 whose destination is `next_scene_id = 42`. -/
def exDbC6 : DB :=
  { users := [⟨1, 0⟩],
    stories := [⟨7, "g", false, 0, 1, 1, true⟩],
    chapters := [⟨3, 7, 2⟩],
    scenes := [⟨42, 3, 7⟩],
    choices := [⟨6, 1, some 42, none, false, 0, 0, 0, 0⟩],
    saves := [⟨1, "g", 1, initialSave⟩] }

/-- Store with one chapter `(story 7, number 2)` and one scene
`(chapter 3, number 7)` for the uniqueness witness. -/
def exDbC7 : DB :=
  { users := [],
    stories := [⟨7, "g", false, 0, 1, 1, true⟩],
    chapters := [⟨3, 7, 2⟩],
    scenes := [⟨42, 3, 7⟩],
    choices := [],
    saves := [] }

/-- Store where choice 5 is premium, costs 10 and the user has 0
diamonds (a request the spec's gating would refuse); the story row for
"g" exists, so the endpoint's final `get_game_story` does not raise. -/
def exDbC8a : DB :=
  { users := [⟨1, 0⟩],
    stories := [⟨7, "g", true, 10, 1, 1, true⟩],
    chapters := [],
    scenes := [],
    choices := [⟨5, 42, none, none, true, 10, 0, 0, 0⟩],
    saves := [⟨1, "g", 1, initialSave⟩] }

/-- Store where choice 5 points at the missing scene 999, so
`make_choice` fails. -/
def exDbC8b : DB :=
  { users := [⟨1, 0⟩],
    stories := [],
    chapters := [],
    scenes := [],
    choices := [⟨5, 42, some 999, none, false, 0, 0, 0, 0⟩],
    saves := [⟨1, "g", 1, initialSave⟩] }

/-- Store with one user and no stories and no saves: the legacy branch
of `can_access_game` is reached for any unknown game key. -/
def exDbC9 : DB :=
  { users := [⟨1, 5⟩],
    stories := [],
    chapters := [],
    scenes := [],
    choices := [],
    saves := [] }

/-- Store with an unpublished premium story costing 10 and a user
holding 50 diamonds and no saves. -/
def exDbC10 : DB :=
  { users := [⟨1, 50⟩],
    stories := [⟨7, "g", true, 10, 1, 1, false⟩],
    chapters := [],
    scenes := [],
    choices := [],
    saves := [] }

/-- Store with a published premium story costing 10 and a user holding
only 5 diamonds and no saves: access is denied for insufficient
diamonds. -/
def exDbC10b : DB :=
  { users := [⟨1, 5⟩],
    stories := [⟨7, "g", true, 10, 1, 1, true⟩],
    chapters := [],
    scenes := [],
    choices := [],
    saves := [] }

/-- Store with a published premium story costing 10 and no user row for
id 1: `can_access_game` denies with "Пользователь не найден". -/
def exDbC10c : DB :=
  { users := [],
    stories := [⟨7, "g", true, 10, 1, 1, true⟩],
    chapters := [],
    scenes := [],
    choices := [],
    saves := [] }

/-! ## Which tables each write operation touches -/

theorem saveGame_users (db : DB) (saveOk : Bool) (userId : Nat) (gameName : String)
    (saveSlot : Int) (st : GameState) :
    ((db.saveGame saveOk userId gameName saveSlot st).1).users = db.users := by
  cases saveOk <;> rfl

theorem saveGame_stories (db : DB) (saveOk : Bool) (userId : Nat) (gameName : String)
    (saveSlot : Int) (st : GameState) :
    ((db.saveGame saveOk userId gameName saveSlot st).1).stories = db.stories := by
  cases saveOk <;> rfl

theorem saveGame_chapters (db : DB) (saveOk : Bool) (userId : Nat) (gameName : String)
    (saveSlot : Int) (st : GameState) :
    ((db.saveGame saveOk userId gameName saveSlot st).1).chapters = db.chapters := by
  cases saveOk <;> rfl

theorem saveGame_scenes (db : DB) (saveOk : Bool) (userId : Nat) (gameName : String)
    (saveSlot : Int) (st : GameState) :
    ((db.saveGame saveOk userId gameName saveSlot st).1).scenes = db.scenes := by
  cases saveOk <;> rfl

theorem saveGame_choices (db : DB) (saveOk : Bool) (userId : Nat) (gameName : String)
    (saveSlot : Int) (st : GameState) :
    ((db.saveGame saveOk userId gameName saveSlot st).1).choices = db.choices := by
  cases saveOk <;> rfl

theorem decrementDiamonds_saves (db : DB) (userId : Nat) (amount : Int) :
    ((db.decrementDiamonds userId amount).1).saves = db.saves := rfl

theorem decrementDiamonds_stories (db : DB) (userId : Nat) (amount : Int) :
    ((db.decrementDiamonds userId amount).1).stories = db.stories := rfl

theorem decrementDiamonds_chapters (db : DB) (userId : Nat) (amount : Int) :
    ((db.decrementDiamonds userId amount).1).chapters = db.chapters := rfl

theorem decrementDiamonds_scenes (db : DB) (userId : Nat) (amount : Int) :
    ((db.decrementDiamonds userId amount).1).scenes = db.scenes := rfl

theorem decrementDiamonds_choices (db : DB) (userId : Nat) (amount : Int) :
    ((db.decrementDiamonds userId amount).1).choices = db.choices := rfl

theorem incrementDiamonds_saves (db : DB) (userId : Nat) (amount : Int) :
    ((db.incrementDiamonds userId amount).1).saves = db.saves := rfl

/-! ## The currency floor -/

theorem decrementDiamonds_balancesNonneg (db : DB) (userId : Nat) (amount : Int)
    (h : balancesNonneg db) : balancesNonneg (db.decrementDiamonds userId amount).1 := by
  intro u hu
  simp only [DB.decrementDiamonds, List.mem_map] at hu
  obtain ⟨v, hv, rfl⟩ := hu
  by_cases hc : (v.id == userId && decide (amount ≤ v.diamonds)) = true
  · simp only [hc, if_true]
    have hle : amount ≤ v.diamonds := of_decide_eq_true (Bool.and_elim_right hc)
    simpa using sub_nonneg.mpr hle
  · simp only [hc, if_false]
    exact h v hv

theorem incrementDiamonds_balancesNonneg (db : DB) (userId : Nat) (amount : Int)
    (hamt : 0 ≤ amount) (h : balancesNonneg db) :
    balancesNonneg (db.incrementDiamonds userId amount).1 := by
  intro u hu
  simp only [DB.incrementDiamonds, List.mem_map] at hu
  obtain ⟨v, hv, rfl⟩ := hu
  by_cases hc : (v.id == userId) = true
  · simp only [hc, if_true]
    simpa using add_nonneg (h v hv) hamt
  · simp only [hc, if_false]
    exact h v hv

theorem saveGame_balancesNonneg (db : DB) (saveOk : Bool) (userId : Nat)
    (gameName : String) (saveSlot : Int) (st : GameState) (h : balancesNonneg db) :
    balancesNonneg (db.saveGame saveOk userId gameName saveSlot st).1 := by
  intro u hu
  rw [saveGame_users] at hu
  exact h u hu

theorem makeChoiceSave_balancesNonneg (db : DB) (saveOk : Bool) (userId : Nat)
    (gameKey : String) (saveSlot : Int) (gs : GameState) (h : balancesNonneg db) :
    balancesNonneg (GameService.makeChoiceSave db saveOk userId gameKey saveSlot gs).db := by
  unfold GameService.makeChoiceSave
  cases saveOk
  · exact h
  · intro u hu
    simp only [DB.saveGame, if_true] at hu
    exact h u hu

theorem loadGameState_balancesNonneg (db : DB) (saveOk : Bool) (userId : Nat)
    (gameKey : String) (saveSlot : Int) (h : balancesNonneg db) :
    balancesNonneg (GameService.loadGameState db saveOk userId gameKey saveSlot).1 := by
  unfold GameService.loadGameState
  cases db.loadGame userId gameKey saveSlot
  · exact saveGame_balancesNonneg _ _ _ _ _ _ h
  · exact h

theorem makeChoiceCore_balancesNonneg (db : DB) (gs0 : GameState) (saveOk : Bool)
    (userId : Nat) (gameKey : String) (choiceId : Nat) (saveSlot : Int)
    (h1 : balancesNonneg db) :
    balancesNonneg (GameService.makeChoiceCore db gs0 saveOk userId gameKey choiceId saveSlot).db := by
  unfold GameService.makeChoiceCore
  dsimp only
  cases db.getChoiceById choiceId with
  | none => exact makeChoiceSave_balancesNonneg _ _ _ _ _ _ h1
  | some cd =>
    dsimp only
    have h2 : balancesNonneg
        (if cd.premium && decide (0 < cd.diamondsCost)
         then (db.decrementDiamonds userId cd.diamondsCost).1 else db) := by
      by_cases hp : (cd.premium && decide (0 < cd.diamondsCost)) = true
      · simpa [hp] using decrementDiamonds_balancesNonneg db userId cd.diamondsCost h1
      · simpa [hp] using h1
    cases cd.nextSceneId with
    | some nextSceneId =>
      dsimp only
      cases DB.getSceneById _ nextSceneId with
      | none => exact h2
      | some nextScene =>
        dsimp only
        cases DB.getChapterById _ nextScene.chapterId with
        | none => exact h2
        | some chapter => exact makeChoiceSave_balancesNonneg _ _ _ _ _ _ h2
    | none =>
      cases cd.nextChapterId with
      | some nextChapterId =>
        dsimp only
        cases DB.getChapterById _ nextChapterId with
        | none => exact h2
        | some nextChapter => exact makeChoiceSave_balancesNonneg _ _ _ _ _ _ h2
      | none => exact makeChoiceSave_balancesNonneg _ _ _ _ _ _ h2

theorem makeChoice_balancesNonneg (db0 : DB) (saveOk : Bool) (userId : Nat)
    (gameKey : String) (choiceId : Nat) (saveSlot : Int) (h : balancesNonneg db0) :
    balancesNonneg (GameService.makeChoice db0 saveOk userId gameKey choiceId saveSlot).db :=
  makeChoiceCore_balancesNonneg _ _ _ _ _ _ _
    (loadGameState_balancesNonneg db0 saveOk userId gameKey saveSlot h)

theorem finishPurchase_balancesNonneg (db : DB) (saveOk : Bool) (userId : Nat)
    (gameKey : String) (diamondsCost : Int) (h : balancesNonneg db) :
    balancesNonneg (GameService.finishPurchase db saveOk userId gameKey diamondsCost).db := by
  unfold GameService.finishPurchase
  cases saveOk
  · simp only [DB.saveGame, if_false]
    by_cases hc : 0 < diamondsCost
    · simpa [hc] using incrementDiamonds_balancesNonneg db userId diamondsCost (le_of_lt hc) h
    · simpa [hc] using h
  · intro u hu
    simp only [DB.saveGame, if_true] at hu
    exact h u hu

theorem purchaseStep_balancesNonneg (db : DB) (saveOk : Bool) (userId : Nat)
    (gameKey : String) (h : balancesNonneg db) :
    balancesNonneg (match GameService.purchaseGame db saveOk userId gameKey with
      | .ok out => out.db
      | .error _ => db) := by
  unfold GameService.purchaseGame
  cases GameService.canAccessGame db userId gameKey with
  | error e => exact h
  | ok res =>
    obtain ⟨accessible, message⟩ := res
    dsimp only
    by_cases hc1 : (!accessible && strContains message "Недостаточно алмазов") = true
    · rw [if_pos hc1]
      exact h
    · rw [if_neg hc1]
      by_cases hc2 : 0 < (match db.getStoryByKey gameKey with
          | some story => story.diamondsCost
          | none => 0)
      · rw [if_pos hc2]
        cases hdec : db.decrementDiamonds userId (match db.getStoryByKey gameKey with
            | some story => story.diamondsCost
            | none => 0) with
        | mk db1 decOk =>
          have hdb1 : balancesNonneg db1 := by
            have hd := decrementDiamonds_balancesNonneg db userId
              (match db.getStoryByKey gameKey with
               | some story => story.diamondsCost
               | none => 0) h
            rwa [hdec] at hd
          cases decOk
          · dsimp only
            exact hdb1
          · dsimp only
            exact finishPurchase_balancesNonneg _ _ _ _ _ hdb1
      · rw [if_neg hc2]
        exact finishPurchase_balancesNonneg _ _ _ _ _ h

theorem stepOp_balancesNonneg (userId : Nat) (db : DB) (op : Op)
    (h : balancesNonneg db) : balancesNonneg (stepOp userId db op) := by
  cases op with
  | choiceOp saveOk gameKey choiceId saveSlot =>
    exact makeChoice_balancesNonneg db saveOk userId gameKey choiceId saveSlot h
  | purchaseOp saveOk gameKey =>
    exact purchaseStep_balancesNonneg db saveOk userId gameKey h

theorem runOps_balancesNonneg (userId : Nat) (db : DB) (ops : List Op)
    (h : balancesNonneg db) : balancesNonneg (runOps userId db ops) := by
  induction ops generalizing db with
  | nil => exact h
  | cons op rest ih => exact ih (stepOp userId db op) (stepOp_balancesNonneg userId db op h)

theorem decrementDiamonds_insufficient (db : DB) (userId : Nat) (amount : Int)
    (h : ∀ u ∈ db.users, u.id = userId → u.diamonds < amount) :
    db.decrementDiamonds userId amount = (db, false) := by
  unfold DB.decrementDiamonds
  have hany : db.users.any (fun u => u.id == userId && decide (amount ≤ u.diamonds)) = false := by
    rw [List.any_eq_false]
    intro u hu
    simp only [Bool.and_eq_true, beq_iff_eq, decide_eq_true_eq, not_and]
    intro hid
    exact not_le.mpr (h u hu hid)
  have hmap : ∀ l : List User,
      (∀ x ∈ l, ¬(x.id == userId && decide (amount ≤ x.diamonds)) = true) →
      l.map (fun u =>
        if u.id == userId && decide (amount ≤ u.diamonds)
        then { u with diamonds := u.diamonds - amount } else u) = l := by
    intro l
    induction l with
    | nil => intro _; rfl
    | cons v rest ih =>
      intro hl
      have hv : (v.id == userId && decide (amount ≤ v.diamonds)) = false :=
        Bool.eq_false_iff.mpr (hl v (by simp))
      simp only [List.map_cons, hv, Bool.false_eq_true, if_false]
      rw [ih (fun x hx => hl x (by simp [hx]))]
  rw [hmap db.users (List.any_eq_false.mp hany), hany]

/-! ## Reading back a saved game -/

theorem find?_replace_of_any (row : SaveRow) (p : SaveRow → Bool) (hrow : p row = true) :
    ∀ l : List SaveRow, l.any p = true →
      (l.map (fun s => if p s then row else s)).find? p = some row := by
  intro l
  induction l with
  | nil => intro h; simp at h
  | cons s rest ih =>
    intro h
    by_cases hs : p s = true
    · simp only [List.map_cons, hs, if_true]
      exact List.find?_cons_of_pos _ hrow
    · have hs0 : p s = false := Bool.eq_false_iff.mpr hs
      have hrest : rest.any p = true := by
        simp only [List.any_cons, hs0, Bool.false_or] at h
        exact h
      simp only [List.map_cons, hs0, Bool.false_eq_true, if_false]
      rw [List.find?_cons_of_neg _ (by simp [hs0])]
      exact ih hrest

theorem find?_append_row (row : SaveRow) (p : SaveRow → Bool) (hrow : p row = true) :
    ∀ l : List SaveRow, l.any p = false → (l ++ [row]).find? p = some row := by
  intro l
  induction l with
  | nil =>
    intro _
    show List.find? p [row] = some row
    exact List.find?_cons_of_pos _ hrow
  | cons s rest ih =>
    intro h
    simp only [List.any_cons, Bool.or_eq_false_iff] at h
    rw [List.cons_append, List.find?_cons_of_neg _ (by simp [h.1])]
    exact ih h.2

theorem upsertSave_find? (l : List SaveRow) (userId : Nat) (gameName : String)
    (saveSlot : Int) (st : GameState) :
    (upsertSave l ⟨userId, gameName, saveSlot, st⟩).find? (fun s =>
        s.userId == userId && s.gameName == gameName && s.saveSlot == saveSlot)
      = some ⟨userId, gameName, saveSlot, st⟩ := by
  have hrow : (fun s : SaveRow =>
      s.userId == userId && s.gameName == gameName && s.saveSlot == saveSlot)
      ⟨userId, gameName, saveSlot, st⟩ = true := by simp
  unfold upsertSave
  by_cases hany : l.any (fun s =>
      s.userId == userId && s.gameName == gameName && s.saveSlot == saveSlot) = true
  · rw [if_pos hany]
    exact find?_replace_of_any _ _ hrow l hany
  · rw [if_neg hany]
    exact find?_append_row _ _ hrow l (Bool.eq_false_iff.mpr hany)

theorem saveGame_false (db : DB) (userId : Nat) (gameName : String)
    (saveSlot : Int) (st : GameState) :
    db.saveGame false userId gameName saveSlot st = (db, false) := rfl

theorem saveGame_true_loadGame (db : DB) (userId : Nat) (gameName : String)
    (saveSlot : Int) (st : GameState) :
    ((db.saveGame true userId gameName saveSlot st).1).loadGame userId gameName saveSlot
      = some st := by
  unfold DB.saveGame DB.loadGame
  rw [if_pos rfl]
  dsimp only
  rw [upsertSave_find? db.saves userId gameName saveSlot st]
  rfl

theorem makeChoiceSave_true (db : DB) (userId : Nat) (gameKey : String)
    (saveSlot : Int) (gs : GameState) :
    GameService.makeChoiceSave db true userId gameKey saveSlot gs
      = ⟨(db.saveGame true userId gameKey saveSlot gs).1, true, "Выбор сделан", some gs⟩ := rfl

theorem makeChoiceSave_false (db : DB) (userId : Nat) (gameKey : String)
    (saveSlot : Int) (gs : GameState) :
    GameService.makeChoiceSave db false userId gameKey saveSlot gs
      = ⟨db, false, "Ошибка сохранения", none⟩ := rfl

theorem loadGameState_of_some (db : DB) (saveOk : Bool) (userId : Nat)
    (gameKey : String) (saveSlot : Int) (gs0 : GameState)
    (h : db.loadGame userId gameKey saveSlot = some gs0) :
    GameService.loadGameState db saveOk userId gameKey saveSlot = (db, gs0) := by
  unfold GameService.loadGameState
  rw [h]

theorem loadGameState_false_db (db : DB) (userId : Nat) (gameKey : String)
    (saveSlot : Int) :
    (GameService.loadGameState db false userId gameKey saveSlot).1 = db := by
  unfold GameService.loadGameState
  cases db.loadGame userId gameKey saveSlot <;> rfl

theorem makeChoice_eq_core (db : DB) (saveOk : Bool) (userId : Nat)
    (gameKey : String) (choiceId : Nat) (saveSlot : Int) (gs0 : GameState)
    (h : db.loadGame userId gameKey saveSlot = some gs0) :
    GameService.makeChoice db saveOk userId gameKey choiceId saveSlot
      = GameService.makeChoiceCore db gs0 saveOk userId gameKey choiceId saveSlot := by
  unfold GameService.makeChoice
  rw [loadGameState_of_some db saveOk userId gameKey saveSlot gs0 h]

/-! ## Tables `make_choice` never rewrites -/

theorem makeChoiceSave_db_component {α : Type} (F : DB → α)
    (hsave : ∀ (db : DB) (so : Bool) (uid : Nat) (g : String) (slot : Int) (st : GameState),
      F (DB.saveGame db so uid g slot st).1 = F db) :
    ∀ (db : DB) (so : Bool) (uid : Nat) (g : String) (slot : Int) (gs : GameState),
      F (GameService.makeChoiceSave db so uid g slot gs).db = F db := by
  intro db so uid g slot gs
  unfold GameService.makeChoiceSave
  cases so
  · rfl
  · exact hsave db true uid g slot gs

theorem makeChoiceCore_db_component {α : Type} (F : DB → α)
    (hsave : ∀ (db : DB) (so : Bool) (uid : Nat) (g : String) (slot : Int) (st : GameState),
      F (DB.saveGame db so uid g slot st).1 = F db)
    (hdec : ∀ (db : DB) (uid : Nat) (amt : Int),
      F (DB.decrementDiamonds db uid amt).1 = F db) :
    ∀ (db : DB) (gs0 : GameState) (so : Bool) (uid : Nat) (g : String)
      (cid : Nat) (slot : Int),
      F (GameService.makeChoiceCore db gs0 so uid g cid slot).db = F db := by
  intro db gs0 so uid g cid slot
  unfold GameService.makeChoiceCore
  dsimp only
  cases db.getChoiceById cid with
  | none => exact makeChoiceSave_db_component F hsave db so uid g slot _
  | some cd =>
    dsimp only
    have hdb2 : F (if cd.premium && decide (0 < cd.diamondsCost)
        then (db.decrementDiamonds uid cd.diamondsCost).1 else db) = F db := by
      split
      · exact hdec db uid cd.diamondsCost
      · rfl
    cases cd.nextSceneId with
    | some nsid =>
      dsimp only
      cases DB.getSceneById _ nsid with
      | none => exact hdb2
      | some ns =>
        dsimp only
        cases DB.getChapterById _ ns.chapterId with
        | none => exact hdb2
        | some ch => rw [makeChoiceSave_db_component F hsave]; exact hdb2
    | none =>
      cases cd.nextChapterId with
      | some ncid =>
        dsimp only
        cases DB.getChapterById _ ncid with
        | none => exact hdb2
        | some nc => rw [makeChoiceSave_db_component F hsave]; exact hdb2
      | none => rw [makeChoiceSave_db_component F hsave]; exact hdb2

theorem makeChoice_db_component {α : Type} (F : DB → α)
    (hsave : ∀ (db : DB) (so : Bool) (uid : Nat) (g : String) (slot : Int) (st : GameState),
      F (DB.saveGame db so uid g slot st).1 = F db)
    (hdec : ∀ (db : DB) (uid : Nat) (amt : Int),
      F (DB.decrementDiamonds db uid amt).1 = F db) :
    ∀ (db0 : DB) (so : Bool) (uid : Nat) (g : String) (cid : Nat) (slot : Int),
      F (GameService.makeChoice db0 so uid g cid slot).db = F db0 := by
  intro db0 so uid g cid slot
  unfold GameService.makeChoice
  rw [makeChoiceCore_db_component F hsave hdec]
  unfold GameService.loadGameState
  cases db0.loadGame uid g slot with
  | none => exact hsave db0 so uid g slot initialSave
  | some st => rfl

theorem makeChoice_choices (db0 : DB) (so : Bool) (uid : Nat) (g : String)
    (cid : Nat) (slot : Int) :
    (GameService.makeChoice db0 so uid g cid slot).db.choices = db0.choices :=
  makeChoice_db_component (fun db => db.choices)
    (fun db so uid g slot st => saveGame_choices db so uid g slot st)
    (fun db uid amt => decrementDiamonds_choices db uid amt) db0 so uid g cid slot

theorem makeChoice_scenes (db0 : DB) (so : Bool) (uid : Nat) (g : String)
    (cid : Nat) (slot : Int) :
    (GameService.makeChoice db0 so uid g cid slot).db.scenes = db0.scenes :=
  makeChoice_db_component (fun db => db.scenes)
    (fun db so uid g slot st => saveGame_scenes db so uid g slot st)
    (fun db uid amt => decrementDiamonds_scenes db uid amt) db0 so uid g cid slot

theorem makeChoice_chapters (db0 : DB) (so : Bool) (uid : Nat) (g : String)
    (cid : Nat) (slot : Int) :
    (GameService.makeChoice db0 so uid g cid slot).db.chapters = db0.chapters :=
  makeChoice_db_component (fun db => db.chapters)
    (fun db so uid g slot st => saveGame_chapters db so uid g slot st)
    (fun db uid amt => decrementDiamonds_chapters db uid amt) db0 so uid g cid slot

theorem makeChoiceCore_choices (db : DB) (gs0 : GameState) (so : Bool) (uid : Nat)
    (g : String) (cid : Nat) (slot : Int) :
    (GameService.makeChoiceCore db gs0 so uid g cid slot).db.choices = db.choices :=
  makeChoiceCore_db_component (fun d => d.choices)
    (fun db so uid g slot st => saveGame_choices db so uid g slot st)
    (fun db uid amt => decrementDiamonds_choices db uid amt) db gs0 so uid g cid slot

/-! ## A failing save write commits nothing but the debit -/

theorem makeChoiceCore_saveFail (db : DB) (gs0 : GameState) (userId : Nat)
    (gameKey : String) (choiceId : Nat) (saveSlot : Int) (cd : Choice)
    (hcd : db.getChoiceById choiceId = some cd) :
    (GameService.makeChoiceCore db gs0 false userId gameKey choiceId saveSlot).success = false ∧
    (GameService.makeChoiceCore db gs0 false userId gameKey choiceId saveSlot).db.saves = db.saves ∧
    (GameService.makeChoiceCore db gs0 false userId gameKey choiceId saveSlot).db.users =
      (if cd.premium && decide (0 < cd.diamondsCost)
       then (db.decrementDiamonds userId cd.diamondsCost).1 else db).users := by
  unfold GameService.makeChoiceCore
  rw [hcd]
  dsimp only
  have hsaves : (if cd.premium && decide (0 < cd.diamondsCost)
      then (db.decrementDiamonds userId cd.diamondsCost).1 else db).saves = db.saves := by
    split
    · exact decrementDiamonds_saves db userId cd.diamondsCost
    · rfl
  cases cd.nextSceneId with
  | some nsid =>
    dsimp only
    cases DB.getSceneById _ nsid with
    | none => exact ⟨rfl, hsaves, rfl⟩
    | some ns =>
      dsimp only
      cases DB.getChapterById _ ns.chapterId with
      | none => exact ⟨rfl, hsaves, rfl⟩
      | some ch =>
        dsimp only
        rw [makeChoiceSave_false]
        exact ⟨rfl, hsaves, rfl⟩
  | none =>
    cases cd.nextChapterId with
    | some ncid =>
      dsimp only
      cases DB.getChapterById _ ncid with
      | none => exact ⟨rfl, hsaves, rfl⟩
      | some nc =>
        dsimp only
        rw [makeChoiceSave_false]
        exact ⟨rfl, hsaves, rfl⟩
    | none => rw [makeChoiceSave_false]; exact ⟨rfl, hsaves, rfl⟩

/-! ## One successful choice adds exactly its deltas -/

theorem makeChoiceCore_step (db : DB) (gs0 : GameState) (userId : Nat)
    (gameKey : String) (choiceId : Nat) (saveSlot : Int) (cd : Choice)
    (hcd : db.getChoiceById choiceId = some cd)
    (hs : (GameService.makeChoiceCore db gs0 true userId gameKey choiceId saveSlot).success = true) :
    ∃ gs1, (GameService.makeChoiceCore db gs0 true userId gameKey choiceId saveSlot).db.loadGame
        userId gameKey saveSlot = some gs1 ∧
      gs1.stats = gs0.stats.add (choiceDeltas cd) := by
  unfold GameService.makeChoiceCore at hs ⊢
  rw [hcd] at hs ⊢
  dsimp only at hs ⊢
  revert hs
  split
  · split
    · intro hs
      simp at hs
    · split
      · intro hs
        simp at hs
      · intro _
        rw [makeChoiceSave_true]
        exact ⟨_, saveGame_true_loadGame _ _ _ _ _, rfl⟩
  · split
    · split
      · intro hs
        simp at hs
      · intro _
        rw [makeChoiceSave_true]
        exact ⟨_, saveGame_true_loadGame _ _ _ _ _, rfl⟩
    · intro _
      rw [makeChoiceSave_true]
      exact ⟨_, saveGame_true_loadGame _ _ _ _ _, rfl⟩

theorem stats_add_zero (a : Stats) : a.add ⟨0, 0, 0⟩ = a := by
  cases a
  simp [Stats.add]

theorem stats_add_assoc (a b c : Stats) : (a.add b).add c = a.add (b.add c) := by
  cases a; cases b; cases c
  simp [Stats.add, add_assoc]

theorem sumDeltas_congr (db1 db2 : DB) (h : db1.choices = db2.choices) :
    ∀ l : List Nat, sumDeltas db1 l = sumDeltas db2 l := by
  intro l
  induction l with
  | nil => rfl
  | cons cid rest ih =>
    have hc : db1.getChoiceById cid = db2.getChoiceById cid := by
      unfold DB.getChoiceById
      rw [h]
    unfold sumDeltas
    rw [hc, ih]

/-! ## Appending a fresh key keeps the key sets unique -/

theorem chapterKeysUnique_append (l : List Chapter) (x : Chapter)
    (hl : chapterKeysUnique l = true)
    (hx : l.any (fun c => c.storyId == x.storyId && c.chapterNumber == x.chapterNumber) = false) :
    chapterKeysUnique (l ++ [x]) = true := by
  induction l with
  | nil => simp [chapterKeysUnique]
  | cons c rest ih =>
    simp only [chapterKeysUnique, Bool.and_eq_true, Bool.not_eq_true', List.any_eq_false,
      beq_iff_eq, not_and] at hl
    obtain ⟨hc, hrest⟩ := hl
    simp only [List.any_eq_false, Bool.and_eq_true, beq_iff_eq, not_and, List.mem_cons] at hx
    simp only [List.cons_append, chapterKeysUnique, Bool.and_eq_true, Bool.not_eq_true',
      List.any_eq_false, beq_iff_eq, not_and, List.mem_append, List.mem_singleton]
    constructor
    · intro d hd
      rcases List.mem_append.mp hd with hdrest | hdx
      · exact hc d hdrest
      · intro hsid hnum
        rw [List.mem_singleton] at hdx
        subst hdx
        exact hx c (Or.inl rfl) hsid.symm hnum.symm
    · apply ih hrest
      simp only [List.any_eq_false, Bool.and_eq_true, beq_iff_eq, not_and]
      intro d hd
      exact hx d (Or.inr hd)

theorem sceneKeysUnique_append (l : List Scene) (x : Scene)
    (hl : sceneKeysUnique l = true)
    (hx : l.any (fun s => s.chapterId == x.chapterId && s.sceneNumber == x.sceneNumber) = false) :
    sceneKeysUnique (l ++ [x]) = true := by
  induction l with
  | nil => simp [sceneKeysUnique]
  | cons c rest ih =>
    simp only [sceneKeysUnique, Bool.and_eq_true, Bool.not_eq_true', List.any_eq_false,
      beq_iff_eq, not_and] at hl
    obtain ⟨hc, hrest⟩ := hl
    simp only [List.any_eq_false, Bool.and_eq_true, beq_iff_eq, not_and, List.mem_cons] at hx
    simp only [List.cons_append, sceneKeysUnique, Bool.and_eq_true, Bool.not_eq_true',
      List.any_eq_false, beq_iff_eq, not_and, List.mem_append, List.mem_singleton]
    constructor
    · intro d hd
      rcases List.mem_append.mp hd with hdrest | hdx
      · exact hc d hdrest
      · intro hsid hnum
        rw [List.mem_singleton] at hdx
        subst hdx
        exact hx c (Or.inl rfl) hsid.symm hnum.symm
    · apply ih hrest
      simp only [List.any_eq_false, Bool.and_eq_true, beq_iff_eq, not_and]
      intro d hd
      exact hx d (Or.inr hd)

/-! ## Locating a user row after a balance update -/

theorem find?_users_map (userId : Nat) (f : User → User)
    (hid : ∀ v : User, (f v).id = v.id) :
    ∀ l : List User, (l.map f).find? (fun v => v.id == userId)
      = (l.find? (fun v => v.id == userId)).map f := by
  intro l
  induction l with
  | nil => rfl
  | cons v rest ih =>
    rw [List.map_cons]
    by_cases hv : (v.id == userId) = true
    · have hfv : ((f v).id == userId) = true := by
        rw [hid v]
        exact hv
      rw [@List.find?_cons_of_pos _ (fun v => v.id == userId) (f v) (rest.map f) hfv,
        @List.find?_cons_of_pos _ (fun v => v.id == userId) v rest hv]
      rfl
    · have hfv : ¬((f v).id == userId) = true := by
        rw [hid v]
        exact hv
      rw [@List.find?_cons_of_neg _ (fun v => v.id == userId) (f v) (rest.map f) hfv,
        @List.find?_cons_of_neg _ (fun v => v.id == userId) v rest hv, ih]

theorem decrement_fn_id (userId : Nat) (amount : Int) (v : User) :
    ((fun u : User =>
      if u.id == userId && decide (amount ≤ u.diamonds)
      then { u with diamonds := u.diamonds - amount } else u) v).id = v.id := by
  dsimp only
  split <;> rfl

theorem increment_fn_id (userId : Nat) (amount : Int) (v : User) :
    ((fun u : User =>
      if u.id == userId then { u with diamonds := u.diamonds + amount } else u) v).id = v.id := by
  dsimp only
  split <;> rfl

theorem getUserById_decrement (db : DB) (userId : Nat) (amount : Int) (u : User)
    (hu : db.getUserById userId = some u) (hge : amount ≤ u.diamonds) :
    (db.decrementDiamonds userId amount).1.getUserById userId
      = some { u with diamonds := u.diamonds - amount }
    ∧ (db.decrementDiamonds userId amount).2 = true := by
  have hu2 : db.users.find? (fun v => v.id == userId) = some u := hu
  have hp0 := List.find?_some hu2
  have hp : (u.id == userId) = true := hp0
  have hmem : u ∈ db.users := List.mem_of_find?_eq_some hu2
  constructor
  · unfold DB.decrementDiamonds DB.getUserById
    dsimp only
    rw [find?_users_map userId _ (decrement_fn_id userId amount) db.users, hu2]
    simp only [Option.map_some']
    rw [if_pos (by rw [hp]; simpa using hge)]
  · unfold DB.decrementDiamonds
    dsimp only
    rw [List.any_eq_true]
    exact ⟨u, hmem, by rw [Bool.and_eq_true, decide_eq_true_eq]; exact ⟨hp, hge⟩⟩

theorem diamondsOf_dec_inc (db : DB) (userId : Nat) (amount : Int) (u : User)
    (hu : db.getUserById userId = some u) (hge : amount ≤ u.diamonds) :
    (((db.decrementDiamonds userId amount).1.incrementDiamonds userId amount).1).diamondsOf userId
      = some u.diamonds := by
  have h1 : (db.decrementDiamonds userId amount).1.users.find? (fun v => v.id == userId)
      = some { u with diamonds := u.diamonds - amount } :=
    (getUserById_decrement db userId amount u hu hge).1
  have hp0 := List.find?_some (show db.users.find? (fun v => v.id == userId) = some u from hu)
  have hp : (u.id == userId) = true := hp0
  unfold DB.diamondsOf DB.getUserById DB.incrementDiamonds
  rw [find?_users_map userId _ (increment_fn_id userId amount), h1]
  simp only [Option.map_some']
  rw [if_pos hp]
  congr 1
  show u.diamonds - amount + amount = u.diamonds
  omega

/-! ## Components preserved by `load_game_state` -/

theorem loadGameState_db_component {α : Type} (F : DB → α)
    (hsave : ∀ (db : DB) (so : Bool) (uid : Nat) (g : String) (slot : Int) (st : GameState),
      F (DB.saveGame db so uid g slot st).1 = F db) :
    ∀ (db : DB) (so : Bool) (uid : Nat) (g : String) (slot : Int),
      F (GameService.loadGameState db so uid g slot).1 = F db := by
  intro db so uid g slot
  unfold GameService.loadGameState
  cases db.loadGame uid g slot with
  | none => exact hsave db so uid g slot initialSave
  | some st => rfl

theorem loadGameState_choices (db : DB) (so : Bool) (uid : Nat) (g : String) (slot : Int) :
    (GameService.loadGameState db so uid g slot).1.choices = db.choices :=
  loadGameState_db_component (fun d => d.choices)
    (fun db so uid g slot st => saveGame_choices db so uid g slot st) db so uid g slot

theorem loadGameState_scenes (db : DB) (so : Bool) (uid : Nat) (g : String) (slot : Int) :
    (GameService.loadGameState db so uid g slot).1.scenes = db.scenes :=
  loadGameState_db_component (fun d => d.scenes)
    (fun db so uid g slot st => saveGame_scenes db so uid g slot st) db so uid g slot

theorem loadGameState_chapters (db : DB) (so : Bool) (uid : Nat) (g : String) (slot : Int) :
    (GameService.loadGameState db so uid g slot).1.chapters = db.chapters :=
  loadGameState_db_component (fun d => d.chapters)
    (fun db so uid g slot st => saveGame_chapters db so uid g slot st) db so uid g slot

theorem loadGameState_stories (db : DB) (so : Bool) (uid : Nat) (g : String) (slot : Int) :
    (GameService.loadGameState db so uid g slot).1.stories = db.stories :=
  loadGameState_db_component (fun d => d.stories)
    (fun db so uid g slot st => saveGame_stories db so uid g slot st) db so uid g slot

/-! ## Full resolution of a scene-destination choice -/

theorem makeChoiceCore_destination (db : DB) (gs0 : GameState) (userId : Nat)
    (gameKey : String) (choiceId : Nat) (saveSlot : Int) (nsid : Nat)
    (cd : Choice) (sc : Scene) (ch : Chapter)
    (hcd : db.getChoiceById choiceId = some cd)
    (hprem : cd.premium = false)
    (hnext : cd.nextSceneId = some nsid)
    (hsc : db.getSceneById nsid = some sc)
    (hch : db.getChapterById sc.chapterId = some ch) :
    GameService.makeChoiceCore db gs0 true userId gameKey choiceId saveSlot
      = ⟨(db.saveGame true userId gameKey saveSlot
            ⟨ch.chapterNumber, sc.sceneNumber,
             gs0.choices ++ [⟨choiceId, gs0.scene, gs0.chapter⟩],
             ⟨gs0.stats.affection + cd.affectionChange,
              gs0.stats.trust + cd.trustChange,
              gs0.stats.passion + cd.passionChange⟩⟩).1,
         true, "Выбор сделан",
         some ⟨ch.chapterNumber, sc.sceneNumber,
               gs0.choices ++ [⟨choiceId, gs0.scene, gs0.chapter⟩],
               ⟨gs0.stats.affection + cd.affectionChange,
                gs0.stats.trust + cd.trustChange,
                gs0.stats.passion + cd.passionChange⟩⟩⟩ := by
  unfold GameService.makeChoiceCore
  rw [hcd]
  dsimp only
  rw [hprem]
  rw [if_neg (by simp)]
  rw [hnext]
  dsimp only
  rw [hsc]
  dsimp only
  rw [hch]
  dsimp only
  rw [makeChoiceSave_true]

theorem apiRespond_eq (db2 : DB) (gameKey : String) (gs2 : GameState) (message : String)
    (story : Story) (hst : db2.getStoryByKey gameKey = some story) :
    apiRespond db2 gameKey gs2 message = (db2, .success gs2 message) := by
  unfold apiRespond
  rw [hst]

/-- After a successful `make_choice` returning state `gsX`, the endpoint
re-reads the choice and overwrites the scene pointer with the raw
`next_scene_id` (here 42) and keeps the state's chapter when
`next_chapter_id` is absent, then re-saves; with the story row present,
`get_game_story` does not raise and the answer is the 200 success. -/
theorem apiMakeChoice_after_success (db : DB) (so : Bool) (userId : Nat)
    (gameKey : String) (choiceId : Nat) (saveSlot : Int) (dbS : DB) (gsX : GameState)
    (cd : Choice) (story : Story)
    (hr : GameService.makeChoice db so userId gameKey choiceId saveSlot
        = ⟨dbS, true, "Выбор сделан", some gsX⟩)
    (hcdS : dbS.getChoiceById choiceId = some cd)
    (hnext : cd.nextSceneId = some 42)
    (hnoch : cd.nextChapterId = none)
    (hst : dbS.getStoryByKey gameKey = some story) :
    apiMakeChoice db so true userId gameKey (some choiceId) saveSlot
      = ((dbS.saveGame true userId gameKey saveSlot
            ⟨gsX.chapter, 42, gsX.choices, gsX.stats⟩).1,
         .success ⟨gsX.chapter, 42, gsX.choices, gsX.stats⟩ "Выбор сделан") := by
  have hst2 : ((dbS.saveGame true userId gameKey saveSlot
      ⟨gsX.chapter, 42, gsX.choices, gsX.stats⟩).1).getStoryByKey gameKey = some story := by
    unfold DB.getStoryByKey
    rw [saveGame_stories]
    exact hst
  unfold apiMakeChoice
  dsimp only
  rw [hr]
  dsimp only
  rw [if_neg (by simp)]
  rw [hcdS]
  dsimp only
  rw [hnext, hnoch]
  exact apiRespond_eq _ _ _ _ story hst2

/-! ## The claims -/

/-- C1: for every user whose diamond balance is non-negative and every
sequence of choice applications and game purchases with non-negative
costs, the balance never becomes negative; `decrement_diamonds` leaves
the balance unchanged and reports failure whenever every matching user
row's balance is below the requested amount. -/
theorem currency_floor :
    (∀ (db : DB) (userId : Nat) (amount : Int),
        (∀ u ∈ db.users, u.id = userId → u.diamonds < amount) →
        db.decrementDiamonds userId amount = (db, false))
    ∧ ∀ (userId : Nat) (db : DB) (ops : List Op),
        balancesNonneg db → costsNonneg db →
        balancesNonneg (runOps userId db ops) := by
  refine ⟨decrementDiamonds_insufficient, ?_⟩
  intro userId db ops h _
  exact runOps_balancesNonneg userId db ops h

/-- Witness for C1: a concrete store in which an unaffordable decrement
is refused unchanged, and a concrete choice-then-purchase run keeps all
balances non-negative. -/
theorem currency_floor_witness :
    DB.decrementDiamonds exDbC1 1 99 = (exDbC1, false) ∧
    balancesNonneg (runOps 1 exDbC1 [Op.choiceOp true "g" 5 1, Op.purchaseOp true "g"]) :=
  ⟨currency_floor.1 exDbC1 1 99 (by decide),
   currency_floor.2 1 exDbC1 _ (by unfold balancesNonneg; decide)
     (by unfold costsNonneg; exact ⟨by decide, by decide⟩)⟩

/-- C2: claimed — a user with 0 diamonds attempting a premium choice
costing 10 gets `success=False`, an insufficient-currency message, and
an unchanged save and balance.  The code instead applies the choice:
`make_choice` never re-checks affordability, discards the failure
returned by `decrement_diamonds`, reports success with "Выбор сделан",
advances the save state and stats, and leaves the balance at 0 without
any debit — the premium content is granted for free. -/
theorem make_choice_zero_diamond_premium :
    (GameService.makeChoice exDbC2 true 1 "g" 5 1).success = true ∧
    (GameService.makeChoice exDbC2 true 1 "g" 5 1).message = "Выбор сделан" ∧
    (GameService.makeChoice exDbC2 true 1 "g" 5 1).db.diamondsOf 1 = some 0 ∧
    (GameService.makeChoice exDbC2 true 1 "g" 5 1).db.loadGame 1 "g" 1
      = some ⟨1, 2, [⟨5, 1, 1⟩], ⟨1, 0, 0⟩⟩ := by decide

/-- C4 counterexample: a failed `make_choice` (save write fails) after
which the user's diamond balance is NOT the same as before — the debit
of the premium cost 5 was committed separately and persists (10 → 5). -/
theorem make_choice_atomicity_counterexample :
    (GameService.makeChoice exDbC4 false 1 "g" 5 1).success = false ∧
    exDbC4.diamondsOf 1 = some 10 ∧
    (GameService.makeChoice exDbC4 false 1 "g" 5 1).db.diamondsOf 1 = some 5 := by decide

/-- C4 amended: when the save write fails, `make_choice` reports failure
and no save-state change is persisted, but the currency debit is not
rolled back: the user table is exactly the one `decrement_diamonds` left
(debited when the choice is premium with a positive cost). -/
theorem make_choice_failed_save_keeps_debit (db : DB) (userId : Nat) (gameKey : String)
    (choiceId : Nat) (saveSlot : Int) (cd : Choice)
    (hcd : db.getChoiceById choiceId = some cd) :
    (GameService.makeChoice db false userId gameKey choiceId saveSlot).success = false ∧
    (GameService.makeChoice db false userId gameKey choiceId saveSlot).db.saves = db.saves ∧
    (GameService.makeChoice db false userId gameKey choiceId saveSlot).db.users =
      (if cd.premium && decide (0 < cd.diamondsCost)
       then (db.decrementDiamonds userId cd.diamondsCost).1 else db).users := by
  unfold GameService.makeChoice
  rw [loadGameState_false_db]
  exact makeChoiceCore_saveFail db _ userId gameKey choiceId saveSlot cd hcd

/-- Witness for the amended C4 at a concrete store. -/
theorem make_choice_failed_save_keeps_debit_witness :
    (GameService.makeChoice exDbC4 false 1 "g" 5 1).success = false ∧
    (GameService.makeChoice exDbC4 false 1 "g" 5 1).db.saves = exDbC4.saves ∧
    (GameService.makeChoice exDbC4 false 1 "g" 5 1).db.users =
      (if (⟨5, 42, none, none, true, 5, 0, 0, 0⟩ : Choice).premium
          && decide (0 < (⟨5, 42, none, none, true, 5, 0, 0, 0⟩ : Choice).diamondsCost)
       then (exDbC4.decrementDiamonds 1 (⟨5, 42, none, none, true, 5, 0, 0, 0⟩ : Choice).diamondsCost).1
       else exDbC4).users :=
  make_choice_failed_save_keeps_debit exDbC4 1 "g" 5 1
    ⟨5, 42, none, none, true, 5, 0, 0, 0⟩ (by decide)

/-- C5: over any sequence of successfully committed choices whose rows
exist, the stored save's stat levels equal the initial levels plus the
componentwise sum of the choices' deltas — additive and unclamped. -/
theorem effect_accumulation (userId : Nat) (gameKey : String) (saveSlot : Int)
    (db : DB) (gs0 : GameState) (choiceIds : List Nat)
    (hsave : db.loadGame userId gameKey saveSlot = some gs0)
    (hall : ∀ cid ∈ choiceIds, (db.getChoiceById cid).isSome = true)
    (hsucc : choicesSucceed userId gameKey saveSlot db choiceIds = true) :
    ∃ gsN, (runChoices userId gameKey saveSlot db choiceIds).loadGame userId gameKey saveSlot
        = some gsN ∧ gsN.stats = gs0.stats.add (sumDeltas db choiceIds) := by
  induction choiceIds generalizing db gs0 with
  | nil => exact ⟨gs0, hsave, by rw [show sumDeltas db [] = ⟨0, 0, 0⟩ from rfl, stats_add_zero]⟩
  | cons cid rest ih =>
    obtain ⟨cd, hcd⟩ : ∃ cd, db.getChoiceById cid = some cd := by
      have hx := hall cid (by simp)
      cases hy : db.getChoiceById cid
      · rw [hy] at hx
        simp at hx
      · exact ⟨_, rfl⟩
    have heq := makeChoice_eq_core db true userId gameKey cid saveSlot gs0 hsave
    simp only [choicesSucceed] at hsucc
    rw [heq] at hsucc
    simp only [Bool.and_eq_true] at hsucc
    obtain ⟨h1, h2⟩ := hsucc
    obtain ⟨gs1, hload1, hstats1⟩ := makeChoiceCore_step db gs0 userId gameKey cid saveSlot cd hcd h1
    have hch := makeChoiceCore_choices db gs0 true userId gameKey cid saveSlot
    have hall2 : ∀ c2 ∈ rest,
        ((GameService.makeChoiceCore db gs0 true userId gameKey cid saveSlot).db.getChoiceById c2).isSome = true := by
      intro c2 hc2
      have hx := hall c2 (by simp [hc2])
      unfold DB.getChoiceById at hx ⊢
      rw [hch]
      exact hx
    obtain ⟨gsN, hloadN, hstatsN⟩ := ih _ gs1 hload1 hall2 h2
    refine ⟨gsN, ?_, ?_⟩
    · simp only [runChoices]
      rw [heq]
      exact hloadN
    · rw [hstatsN, hstats1, sumDeltas_congr _ db hch rest, stats_add_assoc]
      simp only [sumDeltas, hcd]

/-- Witness for C5: two concrete choices with deltas (1,2,3) and
(10,20,30) accumulate onto the zeroed initial save. -/
theorem effect_accumulation_witness :
    ∃ gsN, (runChoices 1 "g" 1 exDbC5 [5, 6]).loadGame 1 "g" 1 = some gsN ∧
      gsN.stats = initialSave.stats.add (sumDeltas exDbC5 [5, 6]) :=
  effect_accumulation 1 "g" 1 exDbC5 initialSave [5, 6] (by decide) (by decide) (by decide)

/-- C3 (spec-modelled): the §4.1 evaluator checks in order with the
first failing check short-circuiting — in particular a premium choice
with diamonds below the cost is always refused with the
insufficient-currency reason, before any other check — and the reason
string is empty exactly when the choice is available. -/
theorem is_choice_available_gating :
    (∀ (u : SpecUser) (s : SpecSave) (c : SpecChoice),
        c.premium = true → u.diamonds < c.diamondsCost →
        isChoiceAvailable u s c = (false, "insufficient currency"))
    ∧ ∀ (u : SpecUser) (s : SpecSave) (c : SpecChoice),
        (isChoiceAvailable u s c).2 = "" ↔ (isChoiceAvailable u s c).1 = true := by
  constructor
  · intro u s c hp hd
    unfold isChoiceAvailable
    have hcond : (c.premium && decide (u.diamonds < c.diamondsCost)) = true := by
      rw [hp]
      simpa using hd
    rw [if_pos hcond]
  · intro u s c
    unfold isChoiceAvailable
    split
    · decide
    · split
      · decide
      · split
        · decide
        · split
          · decide
          · split
            · decide
            · split
              · decide
              · decide

/-- Witness for C3: a leaderless user with 0 diamonds facing a premium
choice costing 10 is refused for insufficient currency. -/
theorem is_choice_available_gating_witness :
    isChoiceAvailable ⟨0, false, 0⟩ ⟨0, 0, 0⟩ ⟨true, 10, false, 0, 0, 0, false, []⟩
      = (false, "insufficient currency") :=
  is_choice_available_gating.1 ⟨0, false, 0⟩ ⟨0, 0, 0⟩ ⟨true, 10, false, 0, 0, 0, false, []⟩
    rfl (by decide)

/-- C7: the authoring operations preserve the uniqueness of
`(story_id, chapter_number)` among chapters and of
`(chapter_id, scene_number)` among scenes, and an insert that would
duplicate a key returns `None` with the store unchanged. -/
theorem authoring_uniqueness (db : DB) (newIdC newIdS storyId chapterId : Nat)
    (chapterNumber sceneNumber : Int) :
    (chapterKeysUnique db.chapters = true →
      chapterKeysUnique ((StoryService.createChapter db newIdC storyId chapterNumber).1).chapters = true)
    ∧ (sceneKeysUnique db.scenes = true →
      sceneKeysUnique ((StoryService.createScene db newIdS chapterId sceneNumber).1).scenes = true)
    ∧ (db.chapters.any (fun c => c.storyId == storyId && c.chapterNumber == chapterNumber) = true →
      StoryService.createChapter db newIdC storyId chapterNumber = (db, none))
    ∧ (db.scenes.any (fun s => s.chapterId == chapterId && s.sceneNumber == sceneNumber) = true →
      StoryService.createScene db newIdS chapterId sceneNumber = (db, none)) := by
  refine ⟨?_, ?_, ?_, ?_⟩
  · intro h
    unfold StoryService.createChapter
    by_cases hdup : db.chapters.any
        (fun c => c.storyId == storyId && c.chapterNumber == chapterNumber) = true
    · rw [if_pos hdup]
      exact h
    · rw [if_neg hdup]
      dsimp only
      exact chapterKeysUnique_append db.chapters ⟨newIdC, storyId, chapterNumber⟩ h
        (Bool.eq_false_iff.mpr hdup)
  · intro h
    unfold StoryService.createScene
    by_cases hdup : db.scenes.any
        (fun s => s.chapterId == chapterId && s.sceneNumber == sceneNumber) = true
    · rw [if_pos hdup]
      exact h
    · rw [if_neg hdup]
      dsimp only
      have happ := sceneKeysUnique_append db.scenes ⟨newIdS, chapterId, sceneNumber⟩ h
        (Bool.eq_false_iff.mpr hdup)
      cases db.getChapterById chapterId
      · exact happ
      · exact happ
  · intro h
    unfold StoryService.createChapter
    rw [if_pos h]
  · intro h
    unfold StoryService.createScene
    rw [if_pos h]

/-- Witness for C7 at a concrete store holding chapter `(7, 2)` and
scene `(3, 7)`: fresh numbers keep the keys unique, duplicate numbers
are refused unchanged. -/
theorem authoring_uniqueness_witness :
    chapterKeysUnique ((StoryService.createChapter exDbC7 99 7 3).1).chapters = true ∧
    sceneKeysUnique ((StoryService.createScene exDbC7 99 3 8).1).scenes = true ∧
    StoryService.createChapter exDbC7 99 7 2 = (exDbC7, none) ∧
    StoryService.createScene exDbC7 99 3 7 = (exDbC7, none) :=
  ⟨(authoring_uniqueness exDbC7 99 99 7 3 3 8).1 (by decide),
   (authoring_uniqueness exDbC7 99 99 7 3 3 8).2.1 (by decide),
   (authoring_uniqueness exDbC7 99 99 7 3 2 7).2.2.1 (by decide),
   (authoring_uniqueness exDbC7 99 99 7 3 2 7).2.2.2 (by decide)⟩

/-- C9: for an existing user with no saves under a game key matching no
story, `can_access_game` does not return normally: the legacy fallback
reads the never-assigned name `game_info` and raises `NameError`. -/
theorem can_access_game_legacy_name_error (db : DB) (userId : Nat) (gameKey : String)
    (hstory : db.getStoryByKey gameKey = none)
    (hsaves : db.getUserSaves userId gameKey = [])
    (huser : (db.getUserById userId).isSome = true) :
    GameService.canAccessGame db userId gameKey = .error (.nameError "game_info") := by
  unfold GameService.canAccessGame
  rw [hstory]
  dsimp only
  rw [hsaves]
  rw [if_neg (by decide)]
  cases hu : db.getUserById userId with
  | none =>
    rw [hu] at huser
    simp at huser
  | some u => rfl

/-- Witness for C9: user 1 exists, has no saves, and "nokey" matches no
story, so the access check raises. -/
theorem can_access_game_legacy_name_error_witness :
    GameService.canAccessGame exDbC9 1 "nokey" = .error (.nameError "game_info") :=
  can_access_game_legacy_name_error exDbC9 1 "nokey" (by decide) (by decide) (by decide)

/-- C6 counterexample: scene id 42 has scene_number 7; `make_choice` on
a non-premium choice whose destination is the existing scene 42 succeeds
but returns and stores scene pointer 7 (the destination's scene_number),
not 42 (its id); only the endpoint later overwrites it with 42. -/
theorem make_choice_destination_counterexample :
    exDbC6.getChoiceById 6 = some ⟨6, 1, some 42, none, false, 0, 0, 0, 0⟩ ∧
    exDbC6.getSceneById 42 = some ⟨42, 3, 7⟩ ∧
    (GameService.makeChoice exDbC6 true 1 "g" 6 1).success = true ∧
    (GameService.makeChoice exDbC6 true 1 "g" 6 1).state
      = some ⟨2, 7, [⟨6, 1, 1⟩], ⟨0, 0, 0⟩⟩ ∧
    (GameService.makeChoice exDbC6 true 1 "g" 6 1).state.map GameState.scene ≠ some 42 ∧
    (GameService.makeChoice exDbC6 true 1 "g" 6 1).db.loadGame 1 "g" 1
      = some ⟨2, 7, [⟨6, 1, 1⟩], ⟨0, 0, 0⟩⟩ := by decide

/-- C6 amended: for a non-premium choice whose `next_scene_id = 42`
names an existing scene with an existing chapter (no `next_chapter_id`),
in a game whose key matches an existing story (so the endpoint's final
`get_game_story` does not raise), `make_choice` succeeds and stores the
destination scene's scene_number and its chapter's chapter_number as
the pointers; the endpoint then overwrites the scene pointer with the
raw id 42 and re-saves, so the response and the final stored save carry
scene pointer 42 with the chapter pointer still the destination
chapter's number. -/
theorem make_choice_destination_resolution (db : DB) (userId : Nat) (gameKey : String)
    (choiceId : Nat) (saveSlot : Int) (cd : Choice) (sc : Scene) (ch : Chapter)
    (story : Story)
    (hcd : db.getChoiceById choiceId = some cd)
    (hprem : cd.premium = false)
    (hnext : cd.nextSceneId = some 42)
    (hnoch : cd.nextChapterId = none)
    (hsc : db.getSceneById 42 = some sc)
    (hch : db.getChapterById sc.chapterId = some ch)
    (hstory : db.getStoryByKey gameKey = some story) :
    (GameService.makeChoice db true userId gameKey choiceId saveSlot).success = true ∧
    (GameService.makeChoice db true userId gameKey choiceId saveSlot).state.map GameState.scene
      = some sc.sceneNumber ∧
    (GameService.makeChoice db true userId gameKey choiceId saveSlot).state.map GameState.chapter
      = some ch.chapterNumber ∧
    ∃ dbF gs2, apiMakeChoice db true true userId gameKey (some choiceId) saveSlot
        = (dbF, .success gs2 "Выбор сделан") ∧
      gs2.scene = 42 ∧ gs2.chapter = ch.chapterNumber ∧
      dbF.loadGame userId gameKey saveSlot = some gs2 := by
  have hcdL : (GameService.loadGameState db true userId gameKey saveSlot).1.getChoiceById
      choiceId = some cd := by
    unfold DB.getChoiceById
    rw [loadGameState_choices]
    exact hcd
  have hscL : (GameService.loadGameState db true userId gameKey saveSlot).1.getSceneById
      42 = some sc := by
    unfold DB.getSceneById
    rw [loadGameState_scenes]
    exact hsc
  have hchL : (GameService.loadGameState db true userId gameKey saveSlot).1.getChapterById
      sc.chapterId = some ch := by
    unfold DB.getChapterById
    rw [loadGameState_chapters]
    exact hch
  have hr : GameService.makeChoice db true userId gameKey choiceId saveSlot
      = ⟨((GameService.loadGameState db true userId gameKey saveSlot).1.saveGame true userId
            gameKey saveSlot
            ⟨ch.chapterNumber, sc.sceneNumber,
             (GameService.loadGameState db true userId gameKey saveSlot).2.choices ++
               [⟨choiceId, (GameService.loadGameState db true userId gameKey saveSlot).2.scene,
                 (GameService.loadGameState db true userId gameKey saveSlot).2.chapter⟩],
             ⟨(GameService.loadGameState db true userId gameKey saveSlot).2.stats.affection
                + cd.affectionChange,
              (GameService.loadGameState db true userId gameKey saveSlot).2.stats.trust
                + cd.trustChange,
              (GameService.loadGameState db true userId gameKey saveSlot).2.stats.passion
                + cd.passionChange⟩⟩).1,
         true, "Выбор сделан",
         some ⟨ch.chapterNumber, sc.sceneNumber,
               (GameService.loadGameState db true userId gameKey saveSlot).2.choices ++
                 [⟨choiceId, (GameService.loadGameState db true userId gameKey saveSlot).2.scene,
                   (GameService.loadGameState db true userId gameKey saveSlot).2.chapter⟩],
               ⟨(GameService.loadGameState db true userId gameKey saveSlot).2.stats.affection
                  + cd.affectionChange,
                (GameService.loadGameState db true userId gameKey saveSlot).2.stats.trust
                  + cd.trustChange,
                (GameService.loadGameState db true userId gameKey saveSlot).2.stats.passion
                  + cd.passionChange⟩⟩⟩ := by
    unfold GameService.makeChoice
    exact makeChoiceCore_destination _ _ userId gameKey choiceId saveSlot 42 cd sc ch
      hcdL hprem hnext hscL hchL
  have hcdS : ∀ st : GameState,
      ((GameService.loadGameState db true userId gameKey saveSlot).1.saveGame true userId
        gameKey saveSlot st).1.getChoiceById choiceId = some cd := by
    intro st
    unfold DB.getChoiceById
    rw [saveGame_choices]
    exact hcdL
  have hstS : ∀ st : GameState,
      ((GameService.loadGameState db true userId gameKey saveSlot).1.saveGame true userId
        gameKey saveSlot st).1.getStoryByKey gameKey = some story := by
    intro st
    unfold DB.getStoryByKey
    rw [saveGame_stories, loadGameState_stories]
    exact hstory
  refine ⟨by rw [hr], by rw [hr]; rfl, by rw [hr]; rfl, ?_⟩
  have hapi := apiMakeChoice_after_success db true userId gameKey choiceId saveSlot _ _ cd
    story hr (hcdS _) hnext hnoch (hstS _)
  exact ⟨_, _, hapi, rfl, rfl, saveGame_true_loadGame _ _ _ _ _⟩

/-- Witness for the amended C6 at the concrete store: scene id 42 has
number 7; the endpoint's final save carries scene pointer 42 and chapter
pointer 2. -/
theorem make_choice_destination_resolution_witness :
    (GameService.makeChoice exDbC6 true 1 "g" 6 1).success = true ∧
    (GameService.makeChoice exDbC6 true 1 "g" 6 1).state.map GameState.scene
      = some (⟨42, 3, 7⟩ : Scene).sceneNumber ∧
    (GameService.makeChoice exDbC6 true 1 "g" 6 1).state.map GameState.chapter
      = some (⟨3, 7, 2⟩ : Chapter).chapterNumber ∧
    ∃ dbF gs2, apiMakeChoice exDbC6 true true 1 "g" (some 6) 1
        = (dbF, .success gs2 "Выбор сделан") ∧
      gs2.scene = 42 ∧ gs2.chapter = (⟨3, 7, 2⟩ : Chapter).chapterNumber ∧
      dbF.loadGame 1 "g" 1 = some gs2 :=
  make_choice_destination_resolution exDbC6 1 "g" 6 1
    ⟨6, 1, some 42, none, false, 0, 0, 0, 0⟩ ⟨42, 3, 7⟩ ⟨3, 7, 2⟩
    ⟨7, "g", false, 0, 1, 1, true⟩
    (by decide) rfl rfl rfl (by decide) (by decide) (by decide)

/-- C8 counterexample: the request the spec's gating would refuse (user
with 0 diamonds, premium choice costing 10, in an existing story) is
answered 200 with `success: true` — the choice is applied, not
refused — while a request whose choice genuinely cannot be applied
(dangling destination scene) is answered with HTTP status 400 and an
error body, not a `success:false` payload. -/
theorem choice_endpoint_gating_counterexample :
    (apiMakeChoice exDbC8a true true 1 "g" (some 5) 1).2
      = .success ⟨1, 3, [⟨5, 1, 1⟩], ⟨0, 0, 0⟩⟩ "Выбор сделан" ∧
    (apiMakeChoice exDbC8a true true 1 "g" (some 5) 1).1.diamondsOf 1 = some 0 ∧
    (apiMakeChoice exDbC8b true true 1 "g" (some 5) 1).2
      = .httpError 400 "Следующая сцена не найдена" := by decide

/-- C8 amended: gating conditions never cause the endpoint to fail (an
unaffordable premium choice is applied and answered 200); whenever
`make_choice` does report failure, the endpoint answers HTTP 400 with
the message in an `error` body rather than a `success:false` payload. -/
theorem choice_endpoint_failure_http_400 (db : DB) (so so2 : Bool) (userId : Nat)
    (gameKey : String) (choiceId : Nat) (saveSlot : Int)
    (hfail : (GameService.makeChoice db so userId gameKey choiceId saveSlot).success = false) :
    apiMakeChoice db so so2 userId gameKey (some choiceId) saveSlot
      = ((GameService.makeChoice db so userId gameKey choiceId saveSlot).db,
         .httpError 400 (GameService.makeChoice db so userId gameKey choiceId saveSlot).message) := by
  unfold apiMakeChoice
  dsimp only
  rw [if_pos hfail]

/-- Witness for the amended C8: the dangling-destination request is
answered with HTTP 400 carrying the failure message. -/
theorem choice_endpoint_failure_http_400_witness :
    apiMakeChoice exDbC8b true true 1 "g" (some 5) 1
      = ((GameService.makeChoice exDbC8b true 1 "g" 5 1).db,
         .httpError 400 (GameService.makeChoice exDbC8b true 1 "g" 5 1).message) :=
  choice_endpoint_failure_http_400 exDbC8b true true 1 "g" 5 1 (by decide)

/-- C10 amended: `purchase_game` returns the denial early only when
`can_access_game` denies with a message containing the
insufficient-diamonds text; for any other denial (story not published,
user not found) it falls through to the debit attempt.  When the user
exists and can afford the positive story cost, the cost is debited and
the initial chapter-1, scene-1, zero-stat save is written, with a
failing save write refunding the debit and reporting failure (saves and
balance restored).  When no user row can cover the cost — in
particular when the user does not exist — the guarded debit matches no
row and `purchase_game` returns failure with "Недостаточно алмазов" and
creates nothing. -/
theorem purchase_game_gating (userId : Nat) :
    (∀ (db : DB) (saveOk : Bool) (gameKey : String) (accessible : Bool) (message : String),
        GameService.canAccessGame db userId gameKey = .ok (accessible, message) →
        accessible = false → strContains message "Недостаточно алмазов" = true →
        GameService.purchaseGame db saveOk userId gameKey = .ok ⟨db, false, message⟩)
    ∧ (∀ (db : DB) (gameKey : String) (story : Story) (u : User) (message : String),
        GameService.canAccessGame db userId gameKey = .ok (false, message) →
        strContains message "Недостаточно алмазов" = false →
        db.getStoryByKey gameKey = some story →
        0 < story.diamondsCost →
        db.getUserById userId = some u →
        story.diamondsCost ≤ u.diamonds →
        (∃ out, GameService.purchaseGame db true userId gameKey = .ok out ∧
          out.success = true ∧
          out.message = "Игра куплена за " ++ toString story.diamondsCost ++ " алмазов" ∧
          out.db.loadGame userId gameKey 1 = some initialSave ∧
          out.db.diamondsOf userId = some (u.diamonds - story.diamondsCost))
        ∧ ∃ out2, GameService.purchaseGame db false userId gameKey = .ok out2 ∧
          out2.success = false ∧ out2.message = "Ошибка покупки игры" ∧
          out2.db.saves = db.saves ∧
          out2.db.diamondsOf userId = some u.diamonds)
    ∧ ∀ (db : DB) (saveOk : Bool) (gameKey : String) (story : Story) (message : String),
        GameService.canAccessGame db userId gameKey = .ok (false, message) →
        strContains message "Недостаточно алмазов" = false →
        db.getStoryByKey gameKey = some story →
        0 < story.diamondsCost →
        (∀ u ∈ db.users, u.id = userId → u.diamonds < story.diamondsCost) →
        GameService.purchaseGame db saveOk userId gameKey
          = .ok ⟨db, false, "Недостаточно алмазов"⟩ := by
  refine ⟨?_, ?_, ?_⟩
  · intro db saveOk gameKey accessible message hacc hacc2 hmsg
    subst hacc2
    unfold GameService.purchaseGame
    rw [hacc]
    dsimp only
    rw [if_pos (by simp [hmsg])]
  · intro db gameKey story u message hacc hmsg hstory hcost hu hle
    have hdec := getUserById_decrement db userId story.diamondsCost u hu hle
    constructor
    · unfold GameService.purchaseGame
      rw [hacc]
      dsimp only
      rw [if_neg (by simp [hmsg])]
      rw [hstory]
      dsimp only
      rw [if_pos hcost]
      cases hdp : db.decrementDiamonds userId story.diamondsCost with
      | mk db1 ok1 =>
        have hok : ok1 = true := by
          have h2 := hdec.2
          rw [hdp] at h2
          exact h2
        subst hok
        dsimp only
        unfold GameService.finishPurchase DB.saveGame
        rw [if_pos rfl]
        dsimp only
        refine ⟨_, rfl, rfl, rfl, ?_, ?_⟩
        · have := saveGame_true_loadGame db1 userId gameKey 1 initialSave
          unfold DB.saveGame at this
          rw [if_pos rfl] at this
          exact this
        · unfold DB.diamondsOf DB.getUserById
          dsimp only
          have h1 := hdec.1
          rw [hdp] at h1
          unfold DB.getUserById at h1
          rw [h1]
          rfl
    · unfold GameService.purchaseGame
      rw [hacc]
      dsimp only
      rw [if_neg (by simp [hmsg])]
      rw [hstory]
      dsimp only
      rw [if_pos hcost]
      cases hdp : db.decrementDiamonds userId story.diamondsCost with
      | mk db1 ok1 =>
        have hok : ok1 = true := by
          have h2 := hdec.2
          rw [hdp] at h2
          exact h2
        subst hok
        dsimp only
        unfold GameService.finishPurchase
        rw [saveGame_false]
        dsimp only
        rw [if_pos hcost]
        refine ⟨_, rfl, rfl, rfl, ?_, ?_⟩
        · rw [incrementDiamonds_saves]
          have hds := decrementDiamonds_saves db userId story.diamondsCost
          rw [hdp] at hds
          exact hds
        · have hres := diamondsOf_dec_inc db userId story.diamondsCost u hu hle
          rw [hdp] at hres
          exact hres
  · intro db saveOk gameKey story message hacc hmsg hstory hcost hpoor
    have hins := decrementDiamonds_insufficient db userId story.diamondsCost hpoor
    unfold GameService.purchaseGame
    rw [hacc]
    dsimp only
    rw [if_neg (by simp [hmsg])]
    rw [hstory]
    dsimp only
    rw [if_pos hcost]
    rw [hins]

/-- C10 counterexample: for the claim's named "user not found" denial
with a positive story cost, the purchase does NOT proceed: the guarded
debit matches no row, `purchase_game` returns failure with
"Недостаточно алмазов", and no initial save is created — the store
comes back unchanged, its saves still empty. -/
theorem purchase_game_gating_counterexample :
    GameService.canAccessGame exDbC10c 1 "g" = .ok (false, "Пользователь не найден") ∧
    GameService.purchaseGame exDbC10c true 1 "g"
      = .ok ⟨exDbC10c, false, "Недостаточно алмазов"⟩ ∧
    exDbC10c.saves = [] :=
  ⟨rfl, rfl, rfl⟩

/-- Witness for the amended C10: the refusal branch at a store denying
for insufficient diamonds, both proceed-anyway branches at a store whose
story is merely unpublished, and the uncovered-debit branch at a store
whose user does not exist. -/
theorem purchase_game_gating_witness :
    GameService.purchaseGame exDbC10b true 1 "g"
      = .ok ⟨exDbC10b, false, "Недостаточно алмазов. Нужно 10"⟩ ∧
    (∃ out, GameService.purchaseGame exDbC10 true 1 "g" = .ok out ∧
      out.success = true ∧
      out.message = "Игра куплена за " ++ toString (⟨7, "g", true, 10, 1, 1, false⟩ : Story).diamondsCost
        ++ " алмазов" ∧
      out.db.loadGame 1 "g" 1 = some initialSave ∧
      out.db.diamondsOf 1 = some ((⟨1, 50⟩ : User).diamonds
        - (⟨7, "g", true, 10, 1, 1, false⟩ : Story).diamondsCost)) ∧
    (∃ out2, GameService.purchaseGame exDbC10 false 1 "g" = .ok out2 ∧
      out2.success = false ∧ out2.message = "Ошибка покупки игры" ∧
      out2.db.saves = exDbC10.saves ∧
      out2.db.diamondsOf 1 = some (⟨1, 50⟩ : User).diamonds) ∧
    GameService.purchaseGame exDbC10c true 1 "g"
      = .ok ⟨exDbC10c, false, "Недостаточно алмазов"⟩ :=
  ⟨(purchase_game_gating 1).1 exDbC10b true "g" false "Недостаточно алмазов. Нужно 10"
      rfl rfl (by decide),
   ((purchase_game_gating 1).2.1 exDbC10 "g" ⟨7, "g", true, 10, 1, 1, false⟩ ⟨1, 50⟩
      "История еще не опубликована" rfl (by decide) rfl (by decide)
      rfl (by decide)).1,
   ((purchase_game_gating 1).2.1 exDbC10 "g" ⟨7, "g", true, 10, 1, 1, false⟩ ⟨1, 50⟩
      "История еще не опубликована" rfl (by decide) rfl (by decide)
      rfl (by decide)).2,
   (purchase_game_gating 1).2.2 exDbC10c true "g" ⟨7, "g", true, 10, 1, 1, true⟩
      "Пользователь не найден" rfl (by decide) rfl (by decide) (by decide)⟩

end VisualNov
